import Mathlib

/-!
Verification of the `MyMath.js` linear-algebra / PRNG core.

This file gives a shallow embedding of the matrix/vector classes and the
seeded PRNG factory of `src/MyMath.js` and proves (or refutes) the frozen
specification claims about them.

Modelling conventions:
* JS numbers appearing as matrix/vector data are modelled as `ℚ`
  (all claim-relevant arithmetic is exact field arithmetic).
* The PRNG state words are modelled as `ℕ` with explicit `% 2^32`
  wherever JS applies `>>> 0`, `| 0`, `Math.imul`, or a bitwise operator
  (all of which reduce operands modulo `2^32` at the bit-pattern level).
* JS `undefined` fields are modelled with `Option`.
* A thrown JS exception is modelled as `Except.error` with a `JsErr`
  naming the failure kind.
* The runtime class of a matrix object (`instanceof Matrix` /
  `Mat2x2` / `Mat3x3` / `Mat4x4`) is modelled by an `MTag` field, set by
  the corresponding constructor model.
-/

namespace MyMath

/-- The modulus `2^32` of all JS 32-bit coercions (`>>> 0`, `| 0`, …). -/
def U32 : ℕ := 4294967296

/-- ASCII lower-casing of one character; models what
`String.prototype.toLowerCase` does on the ASCII algorithm names that occur
in `prngCreator` (`src/MyMath.js:825`). -/
def lowerChar (c : Char) : Char :=
  if 65 ≤ c.toNat ∧ c.toNat ≤ 90 then Char.ofNat (c.toNat + 32) else c

/-- ASCII `toLowerCase` on strings (see `lowerChar`). -/
def lowerStr (s : String) : String := ⟨s.data.map lowerChar⟩

/-- The kinds of exceptions the modelled code can throw.
* `shapeMismatch`: the `Matrix` flat-scalar constructor's
  `"You need N values…"` error (`src/MyMath.js:313`);
* `incompatibleShapes`: the `Matrix.dotProduct` width/height error
  (`src/MyMath.js:391`);
* `typeError`: a JS `TypeError` from reading a property of `undefined`
  (as in `content[j].asArray[i]` at `src/MyMath.js:299`);
* `rangeError`: a JS `RangeError` from `Array(n)` with an invalid length;
* `shouldNotHappen`: the `default` branch of the `switch` in
  `prngCreator` (`src/MyMath.js:886`). -/
inductive JsErr
  | shapeMismatch
  | incompatibleShapes
  | typeError
  | rangeError
  | shouldNotHappen
deriving DecidableEq

/-- Runtime class tag of a matrix object: plain `Matrix`, or one of the
fixed-size subclasses `Mat2x2` / `Mat3x3` / `Mat4x4`. -/
inductive MTag
  | generic
  | m2
  | m3
  | m4
deriving DecidableEq

/-- A `Vector` object: `length` can be left `undefined` by the JS
constructor (when neither constructor branch matches), `vArray` holds the
numeric entries. -/
structure VectorObj where
  length : Option ℕ
  vArray : List ℚ
deriving DecidableEq

/-- A `Matrix` object as produced by the JS constructor: all three data
fields start out `undefined` and stay so when no construction protocol
matches (`src/MyMath.js:240-324`). -/
structure MatrixObj where
  tag : MTag
  height : Option ℕ
  width : Option ℕ
  mArray : Option (List (List ℚ))
deriving DecidableEq

/-- One argument to the `Matrix` constructor, classified the way the JS
code classifies it with `instanceof Array` / `typeof === "number"` /
`instanceof Vector`:
* `nested rows`: an `Array` whose elements are `Array`s of numbers;
* `row xs`: an `Array` of numbers;
* `num x`: a number;
* `vec v`: a `Vector` instance;
* `other`: any other value (also used as the "missing argument" default,
  since reading past the end of `arguments` yields `undefined`).
An empty JS array literal can be written as either `nested []` or
`row []`; both fall through every constructor branch, as the empty array
does in JS (its first element is `undefined`). -/
inductive CArg
  | nested (rows : List (List ℚ))
  | row (xs : List ℚ)
  | num (x : ℚ)
  | vec (v : VectorObj)
  | other
deriving DecidableEq

/-- Numeric content of an argument; non-numbers default to `0` (the JS
code would propagate `undefined` there — no claim exercises that path,
and no theorem below depends on the default). -/
def numOf : CArg → ℚ
  | .num x => x
  | _ => 0

/-- Array content of an argument; non-arrays default to `[]` (the JS code
would read `undefined` entries there — no claim exercises that path). -/
def rowOf : CArg → List ℚ
  | .row xs => xs
  | _ => []

/-- JS `Array(n)` requires a nonnegative integral length and throws a
`RangeError` otherwise; this converts the numeric `height`/`width`
constructor arguments accordingly. -/
def asSize (x : ℚ) : Except JsErr ℕ :=
  if x.den = 1 ∧ 0 ≤ x.num then .ok x.num.toNat else .error .rangeError

/-- Decidable equality for `Except` values, so the model can be evaluated
on concrete inputs. -/
instance {e : Type} {a : Type} [DecidableEq e] [DecidableEq a] : DecidableEq (Except e a)
  | .ok x, .ok y =>
    if h : x = y then .isTrue (by rw [h]) else .isFalse (by intro hc; cases hc; exact h rfl)
  | .error x, .error y =>
    if h : x = y then .isTrue (by rw [h]) else .isFalse (by intro hc; cases hc; exact h rfl)
  | .ok _, .error _ => .isFalse (by intro hc; cases hc)
  | .error _, .ok _ => .isFalse (by intro hc; cases hc)

/-- The matrix object produced when no construction protocol matches:
`height`, `width` and `mArray` all remain `undefined`
(`src/MyMath.js:241-243`, fall-through of the constructor). -/
def Matrix.undefinedObj : MatrixObj := ⟨.generic, none, none, none⟩

/-- The `Matrix` constructor (`src/MyMath.js:240-324`), with its four
mutually exclusive protocols selected on the shape of `content[0]`
(and, for the flat-scalar protocol, `content[1]`, `content[2]`):
1. nested 2-D array → rows taken directly;
2. one array of numbers per row;
3. one `Vector` per column — this branch reads `content[j].asArray[i]`,
   but the `Vector` getter is named `array`, not `asArray`, so the first
   loop iteration throws a `TypeError` (reading index `i` of
   `undefined`); it only completes when the first vector's length is `0`
   (the loops then run zero iterations);
4. `height`, `width`, then exactly `height*width` scalars in row-major
   order, else the `ShapeMismatch` error.
If no protocol matches, no error is raised and all fields stay
`undefined`. -/
def Matrix.construct (content : List CArg) : Except JsErr MatrixObj :=
  match content.getD 0 .other with
  | .nested rows =>
    match rows with
    | [] => .ok Matrix.undefinedObj
    | r0 :: _ =>
      .ok ⟨.generic, some rows.length, some r0.length,
        some ((List.range rows.length).map fun i =>
          (List.range r0.length).map fun j => (rows.getD i []).getD j 0)⟩
  | .row xs =>
    match xs with
    | [] => .ok Matrix.undefinedObj
    | _ :: _ =>
      .ok ⟨.generic, some content.length, some xs.length,
        some ((List.range content.length).map fun i =>
          (List.range xs.length).map fun j =>
            (rowOf (content.getD i .other)).getD j 0)⟩
  | .vec v =>
    if 0 < v.length.getD 0 then .error .typeError
    else .ok ⟨.generic, v.length, some content.length, some []⟩
  | .num x =>
    match content.getD 1 .other, content.getD 2 .other with
    | .num y, .num _ =>
      (asSize x).bind fun height =>
      (asSize y).bind fun width =>
      if content.length ≠ width * height + 2 then .error .shapeMismatch
      else
        .ok ⟨.generic, some height, some width,
          some ((List.range height).map fun i =>
            (List.range width).map fun j =>
              numOf (content.getD (2 + (i * width + j)) .other))⟩
    | _, _ => .ok Matrix.undefinedObj
  | .other => .ok Matrix.undefinedObj

/-- An operand of `Matrix.dotProduct`: either a matrix or a vector
(the JS function accepts both, `src/MyMath.js:376`). -/
inductive MVal
  | mat (M : MatrixObj)
  | vec (v : VectorObj)
deriving DecidableEq

/-- Constructor call `new Vector(xs)` on an array argument: `length` is the array length,
`vArray` its entries (`src/MyMath.js:39-41`). -/
def Vector.fromList (xs : List ℚ) : VectorObj := ⟨some xs.length, xs⟩

/-- Entry read `M.mArray[i][j]`; out-of-range or `undefined` reads default
to `0` (no claim-relevant path reads out of range). -/
def MatrixObj.ent (M : MatrixObj) (i j : ℕ) : ℚ :=
  ((M.mArray.getD []).getD i []).getD j 0

/-- The operand normalisation at the top of `Matrix.dotProduct`
(`src/MyMath.js:377-388`): a vector is converted to a single-column
matrix through `new Matrix(vector)` (which may throw, see
`Matrix.construct`), and the `asVector` flag records that the result
must be flattened back to a vector. -/
def MVal.toOperand : MVal → Except JsErr (MatrixObj × Bool)
  | .vec v => (Matrix.construct [.vec v]).map fun M => (M, true)
  | .mat M => .ok (M, false)

/-- The generic `Matrix.dotProduct` (`src/MyMath.js:376-413`): normalise both operands,
throw `IncompatibleShapes` when `in1.width !== in2.height`, otherwise
accumulate `outArray[j][i] = Σ_c in1.mArray[j][c] * in2.mArray[c][i]`
(the JS loop starts from `0` and adds term by term, modelled by `foldl`),
and package the result through `new Vector(outArray.map(o => o[0]))` or
`new Matrix(outArray)`. -/
def Matrix.dotProduct (m1 m2 : MVal) : Except JsErr MVal :=
  m1.toOperand.bind fun p1 =>
  m2.toOperand.bind fun p2 =>
  let in1 := p1.1
  let in2 := p2.1
  let asVector := p1.2 || p2.2
  if in1.width ≠ in2.height then .error .incompatibleShapes
  else
    let outArray := (List.range (in1.height.getD 0)).map fun j =>
      (List.range (in2.width.getD 0)).map fun i =>
        (List.range (in1.width.getD 0)).foldl
          (fun acc c => acc + in1.ent j c * in2.ent c i) 0
    if asVector then .ok (.vec (Vector.fromList (outArray.map fun o => o.getD 0 0)))
    else (Matrix.construct [.nested outArray]).map .mat

/-- `Vector.prototype.multiply` with a `Matrix` argument and `self = false`
(the default): it returns `Matrix.dotProduct(value, this)` unchanged
(`src/MyMath.js:117-127`). -/
def Vector.multiplyMatrix (v : VectorObj) (M : MatrixObj) : Except JsErr MVal :=
  Matrix.dotProduct (.mat M) (.vec v)

/-- The `instanceof` test for the fixed-size matrix subclasses: true only for
a matrix operand carrying the corresponding class tag. -/
def MVal.isTag : MVal → MTag → Bool
  | .mat M, t => decide (M.tag = t)
  | .vec _, _ => false

/-- The `Mat2x2` constructor (`src/MyMath.js:508-514`): a leading number
means a flat scalar list, so it prepends the fixed sizes and delegates to
the base constructor; anything else is passed through unchanged. The
result carries the `m2` class tag. -/
def Mat2x2.new (content : List CArg) : Except JsErr MatrixObj :=
  match content.getD 0 .other with
  | .num _ => (Matrix.construct (.num 2 :: .num 2 :: content)).map fun M => { M with tag := .m2 }
  | _ => (Matrix.construct content).map fun M => { M with tag := .m2 }

/-- The `Mat3x3` constructor (`src/MyMath.js:562-568`), as `Mat2x2.new`. -/
def Mat3x3.new (content : List CArg) : Except JsErr MatrixObj :=
  match content.getD 0 .other with
  | .num _ => (Matrix.construct (.num 3 :: .num 3 :: content)).map fun M => { M with tag := .m3 }
  | _ => (Matrix.construct content).map fun M => { M with tag := .m3 }

/-- The `Mat4x4` constructor (`src/MyMath.js:656-662`), as `Mat2x2.new`. -/
def Mat4x4.new (content : List CArg) : Except JsErr MatrixObj :=
  match content.getD 0 .other with
  | .num _ => (Matrix.construct (.num 4 :: .num 4 :: content)).map fun M => { M with tag := .m4 }
  | _ => (Matrix.construct content).map fun M => { M with tag := .m4 }

/-- The specialized `Mat2x2.dotProduct` (`src/MyMath.js:541-558`): when both operands are
`Mat2x2` instances, the unrolled 2×2 product built through
`new Mat2x2([m00,m01],[m10,m11])`; otherwise it falls back to the generic
`Matrix.dotProduct`. -/
def Mat2x2.dotProduct (A B : MVal) : Except JsErr MVal :=
  match A, B with
  | .mat Ma, .mat Mb =>
    if Ma.tag = .m2 ∧ Mb.tag = .m2 then
      (Mat2x2.new
        [.row [Ma.ent 0 0 * Mb.ent 0 0 + Ma.ent 0 1 * Mb.ent 1 0,
               Ma.ent 0 0 * Mb.ent 0 1 + Ma.ent 0 1 * Mb.ent 1 1],
         .row [Ma.ent 1 0 * Mb.ent 0 0 + Ma.ent 1 1 * Mb.ent 1 0,
               Ma.ent 1 0 * Mb.ent 0 1 + Ma.ent 1 1 * Mb.ent 1 1]]).map .mat
    else Matrix.dotProduct A B
  | _, _ => Matrix.dotProduct A B

/-- The specialized `Mat3x3.dotProduct` (`src/MyMath.js:626-652`): unrolled 3×3 product on
two `Mat3x3` instances, generic fallback otherwise. -/
def Mat3x3.dotProduct (A B : MVal) : Except JsErr MVal :=
  match A, B with
  | .mat Ma, .mat Mb =>
    if Ma.tag = .m3 ∧ Mb.tag = .m3 then
      (Mat3x3.new
        [.row [Ma.ent 0 0 * Mb.ent 0 0 + Ma.ent 0 1 * Mb.ent 1 0 + Ma.ent 0 2 * Mb.ent 2 0,
               Ma.ent 0 0 * Mb.ent 0 1 + Ma.ent 0 1 * Mb.ent 1 1 + Ma.ent 0 2 * Mb.ent 2 1,
               Ma.ent 0 0 * Mb.ent 0 2 + Ma.ent 0 1 * Mb.ent 1 2 + Ma.ent 0 2 * Mb.ent 2 2],
         .row [Ma.ent 1 0 * Mb.ent 0 0 + Ma.ent 1 1 * Mb.ent 1 0 + Ma.ent 1 2 * Mb.ent 2 0,
               Ma.ent 1 0 * Mb.ent 0 1 + Ma.ent 1 1 * Mb.ent 1 1 + Ma.ent 1 2 * Mb.ent 2 1,
               Ma.ent 1 0 * Mb.ent 0 2 + Ma.ent 1 1 * Mb.ent 1 2 + Ma.ent 1 2 * Mb.ent 2 2],
         .row [Ma.ent 2 0 * Mb.ent 0 0 + Ma.ent 2 1 * Mb.ent 1 0 + Ma.ent 2 2 * Mb.ent 2 0,
               Ma.ent 2 0 * Mb.ent 0 1 + Ma.ent 2 1 * Mb.ent 1 1 + Ma.ent 2 2 * Mb.ent 2 1,
               Ma.ent 2 0 * Mb.ent 0 2 + Ma.ent 2 1 * Mb.ent 1 2 + Ma.ent 2 2 * Mb.ent 2 2]]).map .mat
    else Matrix.dotProduct A B
  | _, _ => Matrix.dotProduct A B

/-- The specialized `Mat4x4.dotProduct` (`src/MyMath.js:770-806`): unrolled 4×4 product on
two `Mat4x4` instances, generic fallback otherwise. -/
def Mat4x4.dotProduct (A B : MVal) : Except JsErr MVal :=
  match A, B with
  | .mat Ma, .mat Mb =>
    if Ma.tag = .m4 ∧ Mb.tag = .m4 then
      (Mat4x4.new
        [.row [Ma.ent 0 0 * Mb.ent 0 0 + Ma.ent 0 1 * Mb.ent 1 0 + Ma.ent 0 2 * Mb.ent 2 0 + Ma.ent 0 3 * Mb.ent 3 0,
               Ma.ent 0 0 * Mb.ent 0 1 + Ma.ent 0 1 * Mb.ent 1 1 + Ma.ent 0 2 * Mb.ent 2 1 + Ma.ent 0 3 * Mb.ent 3 1,
               Ma.ent 0 0 * Mb.ent 0 2 + Ma.ent 0 1 * Mb.ent 1 2 + Ma.ent 0 2 * Mb.ent 2 2 + Ma.ent 0 3 * Mb.ent 3 2,
               Ma.ent 0 0 * Mb.ent 0 3 + Ma.ent 0 1 * Mb.ent 1 3 + Ma.ent 0 2 * Mb.ent 2 3 + Ma.ent 0 3 * Mb.ent 3 3],
         .row [Ma.ent 1 0 * Mb.ent 0 0 + Ma.ent 1 1 * Mb.ent 1 0 + Ma.ent 1 2 * Mb.ent 2 0 + Ma.ent 1 3 * Mb.ent 3 0,
               Ma.ent 1 0 * Mb.ent 0 1 + Ma.ent 1 1 * Mb.ent 1 1 + Ma.ent 1 2 * Mb.ent 2 1 + Ma.ent 1 3 * Mb.ent 3 1,
               Ma.ent 1 0 * Mb.ent 0 2 + Ma.ent 1 1 * Mb.ent 1 2 + Ma.ent 1 2 * Mb.ent 2 2 + Ma.ent 1 3 * Mb.ent 3 2,
               Ma.ent 1 0 * Mb.ent 0 3 + Ma.ent 1 1 * Mb.ent 1 3 + Ma.ent 1 2 * Mb.ent 2 3 + Ma.ent 1 3 * Mb.ent 3 3],
         .row [Ma.ent 2 0 * Mb.ent 0 0 + Ma.ent 2 1 * Mb.ent 1 0 + Ma.ent 2 2 * Mb.ent 2 0 + Ma.ent 2 3 * Mb.ent 3 0,
               Ma.ent 2 0 * Mb.ent 0 1 + Ma.ent 2 1 * Mb.ent 1 1 + Ma.ent 2 2 * Mb.ent 2 1 + Ma.ent 2 3 * Mb.ent 3 1,
               Ma.ent 2 0 * Mb.ent 0 2 + Ma.ent 2 1 * Mb.ent 1 2 + Ma.ent 2 2 * Mb.ent 2 2 + Ma.ent 2 3 * Mb.ent 3 2,
               Ma.ent 2 0 * Mb.ent 0 3 + Ma.ent 2 1 * Mb.ent 1 3 + Ma.ent 2 2 * Mb.ent 2 3 + Ma.ent 2 3 * Mb.ent 3 3],
         .row [Ma.ent 3 0 * Mb.ent 0 0 + Ma.ent 3 1 * Mb.ent 1 0 + Ma.ent 3 2 * Mb.ent 2 0 + Ma.ent 3 3 * Mb.ent 3 0,
               Ma.ent 3 0 * Mb.ent 0 1 + Ma.ent 3 1 * Mb.ent 1 1 + Ma.ent 3 2 * Mb.ent 2 1 + Ma.ent 3 3 * Mb.ent 3 1,
               Ma.ent 3 0 * Mb.ent 0 2 + Ma.ent 3 1 * Mb.ent 1 2 + Ma.ent 3 2 * Mb.ent 2 2 + Ma.ent 3 3 * Mb.ent 3 2,
               Ma.ent 3 0 * Mb.ent 0 3 + Ma.ent 3 1 * Mb.ent 1 3 + Ma.ent 3 2 * Mb.ent 2 3 + Ma.ent 3 3 * Mb.ent 3 3]]).map .mat
    else Matrix.dotProduct A B
  | _, _ => Matrix.dotProduct A B

/-- Well-formedness: `M` is an `n × n` matrix object whose dimensions are
defined and equal to `n`, and whose backing grid is an `n × n` grid. -/
def MatrixObj.wfSize (M : MatrixObj) (n : ℕ) : Prop :=
  M.height = some n ∧ M.width = some n ∧
    ∃ rows, M.mArray = some rows ∧ rows.length = n ∧ ∀ r ∈ rows, r.length = n

/-- Elementwise equality of two matrix objects: same dimensions and same
backing grid (the class tag may differ). -/
def MatrixObj.elemEq (A B : MatrixObj) : Prop :=
  A.height = B.height ∧ A.width = B.width ∧ A.mArray = B.mArray

/-! ## Real-valued model of the rotation factories

`Mat2x2.getRotation` / `Mat3x3.getRotation` fill their rows with
`Math.cos(angle)` / `Math.sin(angle)`; the claim about them is stated
"exactly over real arithmetic", so this part of the model works over `ℝ`
with `Real.cos` / `Real.sin`, representing a fixed matrix by its
row-major grid. -/

/-- Entry read on a real row-major grid (cf. `MatrixObj.ent`). -/
def entR (A : List (List ℝ)) (i j : ℕ) : ℝ := (A.getD i []).getD j 0

/-- The factory `Mat2x2.getRotation(angle)` (`src/MyMath.js:534-539`). -/
noncomputable def Mat2x2.getRotationR (θ : ℝ) : List (List ℝ) :=
  [[Real.cos θ, -Real.sin θ],
   [Real.sin θ, Real.cos θ]]

/-- The factory `Mat3x3.getRotation(angle)` (`src/MyMath.js:598-604`): homogeneous
2-D rotation. -/
noncomputable def Mat3x3.getRotationR (θ : ℝ) : List (List ℝ) :=
  [[Real.cos θ, -Real.sin θ, 0],
   [Real.sin θ, Real.cos θ, 0],
   [0, 0, 1]]

/-- The factory `Mat2x2.getIdentity()` (`src/MyMath.js:520-525`). -/
def Mat2x2.getIdentityR : List (List ℝ) := [[1, 0], [0, 1]]

/-- The factory `Mat3x3.getIdentity()` (`src/MyMath.js:574-580`). -/
def Mat3x3.getIdentityR : List (List ℝ) := [[1, 0, 0], [0, 1, 0], [0, 0, 1]]

/-- The unrolled 2×2 product of `Mat2x2.dotProduct`
(`src/MyMath.js:546-554`), on real grids. -/
def Mat2x2.dotProductR (A B : List (List ℝ)) : List (List ℝ) :=
  [[entR A 0 0 * entR B 0 0 + entR A 0 1 * entR B 1 0,
    entR A 0 0 * entR B 0 1 + entR A 0 1 * entR B 1 1],
   [entR A 1 0 * entR B 0 0 + entR A 1 1 * entR B 1 0,
    entR A 1 0 * entR B 0 1 + entR A 1 1 * entR B 1 1]]

/-- The unrolled 3×3 product of `Mat3x3.dotProduct`
(`src/MyMath.js:632-648`), on real grids. -/
def Mat3x3.dotProductR (A B : List (List ℝ)) : List (List ℝ) :=
  [[entR A 0 0 * entR B 0 0 + entR A 0 1 * entR B 1 0 + entR A 0 2 * entR B 2 0,
    entR A 0 0 * entR B 0 1 + entR A 0 1 * entR B 1 1 + entR A 0 2 * entR B 2 1,
    entR A 0 0 * entR B 0 2 + entR A 0 1 * entR B 1 2 + entR A 0 2 * entR B 2 2],
   [entR A 1 0 * entR B 0 0 + entR A 1 1 * entR B 1 0 + entR A 1 2 * entR B 2 0,
    entR A 1 0 * entR B 0 1 + entR A 1 1 * entR B 1 1 + entR A 1 2 * entR B 2 1,
    entR A 1 0 * entR B 0 2 + entR A 1 1 * entR B 1 2 + entR A 1 2 * entR B 2 2],
   [entR A 2 0 * entR B 0 0 + entR A 2 1 * entR B 1 0 + entR A 2 2 * entR B 2 0,
    entR A 2 0 * entR B 0 1 + entR A 2 1 * entR B 1 1 + entR A 2 2 * entR B 2 1,
    entR A 2 0 * entR B 0 2 + entR A 2 1 * entR B 1 2 + entR A 2 2 * entR B 2 2]]

/-! ## The seeded PRNG factory (`prngCreator`, `src/MyMath.js:821-890`)

All three algorithms work on unsigned 32-bit words; JS applies `>>> 0`,
`| 0`, `Math.imul` and the bitwise operators, all of which act on the
operand's value modulo `2^32` (its 32-bit pattern) and produce a value
congruent to the pattern result modulo `2^32`.  The model therefore
keeps each state word as the `ℕ` pattern `< 2^32` and applies `% U32`
exactly where JS coerces. -/

/-- Rotate a 32-bit word left by `n`, the pattern of JS `x << n | x >>> (32-n)`. -/
def rotl32 (x n : ℕ) : ℕ := ((x * 2 ^ n) % U32) ||| (x >>> (32 - n))

/-- Arithmetic (sign-extending) 32-bit right shift, the pattern of JS
`x >> n` on an int32 with pattern `x`. -/
def sar32 (x n : ℕ) : ℕ :=
  if x < 2 ^ 31 then x >>> n else (x >>> n) + (U32 - 2 ^ (32 - n))

/-- The four 32-bit state words `a`, `b`, `c`, `d` shared by the sfc32 and
xoshiro128** closures (`src/MyMath.js:841`, `871`). -/
structure Sfc32State where
  a : ℕ
  b : ℕ
  c : ℕ
  d : ℕ
deriving DecidableEq

/-- One call of the sfc32 closure (`src/MyMath.js:842-852`): returns the
raw 32-bit output (the `t >>> 0` that is then divided by `2^32`) and the
updated state.  The leading `% U32` model the `a >>>= 0, b >>>= 0, …`
coercions at the top of each call. -/
def sfc32Next (s : Sfc32State) : ℕ × Sfc32State :=
  let a := s.a % U32
  let b := s.b % U32
  let c := s.c % U32
  let d := s.d % U32
  let t0 := (a + b) % U32
  let a1 := b ^^^ (b >>> 9)
  let b1 := (c + (c * 2 ^ 3) % U32) % U32
  let c1 := rotl32 c 21
  let d1 := (d + 1) % U32
  let t1 := (t0 + d1) % U32
  let c2 := (c1 + t1) % U32
  (t1, ⟨a1, b1, c2, d1⟩)

/-- One call of the mulberry32 closure (`src/MyMath.js:857-862`): the
captured `seed` variable is incremented without wrapping (JS adds in
float64; exact for every run that is practically reachable), all uses of
it are reduced to the 32-bit pattern. -/
def mulberry32Next (s : ℕ) : ℕ × ℕ :=
  let s1 := s + 0x6D2B79F5
  let z := s1 % U32
  let z1 := ((z ^^^ (z >>> 15)) * (z ||| 1)) % U32
  let z2 := z1 ^^^ ((z1 + ((z1 ^^^ sar32 z1 7) * (z1 ||| 61)) % U32) % U32)
  (z2 ^^^ (z2 >>> 14), s1)

/-- One call of the xoshiro128** closure (`src/MyMath.js:872-883`):
output `(a*5 rotl 7)*9` masked to 32 bits, then the shift/rotate/XOR
state update in source order. -/
def xoshiro128Next (s : Sfc32State) : ℕ × Sfc32State :=
  let t := (s.b * 2 ^ 9) % U32
  let r := (rotl32 ((s.a * 5) % U32) 7 * 9) % U32
  let c1 := s.c ^^^ s.a
  let d1 := s.d ^^^ s.b
  let b1 := s.b ^^^ c1
  let a1 := s.a ^^^ d1
  let c2 := c1 ^^^ t
  let d2 := rotl32 d1 11
  (r, ⟨a1, b1, c2, d2⟩)

/-- A generator closure as returned by `prngCreator`: which algorithm it
runs and its current internal state. -/
inductive Prng
  | sfc32 (s : Sfc32State)
  | mulberry32 (s : ℕ)
  | xoshiro128ss (s : Sfc32State)
deriving DecidableEq

/-- One draw: the raw 32-bit output and the advanced generator. -/
def Prng.rawNext : Prng → ℕ × Prng
  | .sfc32 s => ((sfc32Next s).1, .sfc32 (sfc32Next s).2)
  | .mulberry32 s => ((mulberry32Next s).1, .mulberry32 (mulberry32Next s).2)
  | .xoshiro128ss s => ((xoshiro128Next s).1, .xoshiro128ss (xoshiro128Next s).2)

/-- One draw scaled into `[0,1)`: every algorithm returns
`raw / 4294967296` (`src/MyMath.js:851`, `861`, `882`). -/
def Prng.next (p : Prng) : ℚ × Prng :=
  ((p.rawNext.1 : ℚ) / 4294967296, p.rawNext.2)

/-- The sequence of the first `n` draws of a generator. -/
def Prng.seq : Prng → ℕ → List ℚ
  | _, 0 => []
  | p, n + 1 => p.next.1 :: p.next.2.seq n

/-- Decidable check that `q` lies in the half-open unit interval `[0,1)`
(so statements about whole draw sequences stay binder-free). -/
def inUnit (q : ℚ) : Bool := decide (0 ≤ q) && decide (q < 1)

/-- The algorithm list of `prngCreator` (`src/MyMath.js:825`). -/
def availableAlgos : List String := ["sfc32", "Mulberry32", "xoshiro128**"]

/-- The initial `a, b, c, d` words used by both the sfc32 and the
xoshiro128** closure (`src/MyMath.js:841`, `871`): φ/π/e-derived padding
constants plus the seed. -/
def sfc32InitState (seed : ℕ) : Sfc32State :=
  ⟨0x9E3779B8, 0x243F6A88, 0xB7E132B5, seed⟩

/-- The factory `prngCreator(seed, algo)` (`src/MyMath.js:821-890`), for a caller
that supplies a numeric seed (a missing seed is randomised and no claim
quantifies over it).  `algo = none` models both a missing and a
non-string algorithm argument.  Note the guard at `src/MyMath.js:827`:
when the supplied name occurs in `availableAlgos` (case-insensitively)
the name is *replaced* by `"sfc32"` (after warning that it "is not
available"), and when it does not occur the name survives unchanged to
the `switch`, whose `default` branch throws.  The `console.warn` side
effect is not modelled. -/
def prngCreator (seed : ℕ) (algo : Option String) : Except JsErr Prng :=
  let seed := seed % U32
  let algo1 : String :=
    match algo with
    | none => "sfc32"
    | some s => if availableAlgos.any fun a => lowerStr a == lowerStr s then "sfc32" else s
  if lowerStr algo1 == "sfc32" then .ok (.sfc32 (sfc32InitState seed))
  else if lowerStr algo1 == "mulberry32" then .ok (.mulberry32 seed)
  else if lowerStr algo1 == "xoshiro128**" then .ok (.xoshiro128ss (sfc32InitState seed))
  else .error .shouldNotHappen

/-! ## Theorems -/

/-- Lower-casing `"sfc32"` is the identity. -/
theorem lowerStr_sfc32 : lowerStr "sfc32" = "sfc32" := by decide

/-- Lower-casing `"Mulberry32"` gives `"mulberry32"`. -/
theorem lowerStr_mulberry : lowerStr "Mulberry32" = "mulberry32" := by decide

/-- Lower-casing `"xoshiro128**"` is the identity. -/
theorem lowerStr_xoshiro : lowerStr "xoshiro128**" = "xoshiro128**" := by decide

/-- Claim C10: constructor calls matching none of the four protocols — no
arguments, a single non-array non-number value, or just the two size
integers with no scalars — raise no error and leave `height`, `width`
and `mArray` all `undefined`. -/
theorem c10_unmatched_construction_undefined :
    Matrix.construct [] = .ok Matrix.undefinedObj ∧
    Matrix.construct [.other] = .ok Matrix.undefinedObj ∧
    ∀ x y : ℚ, Matrix.construct [.num x, .num y] = .ok Matrix.undefinedObj :=
  ⟨rfl, rfl, fun _ _ => rfl⟩

/-- Claim C1 (refuted, code bug): for every seed, an algorithm name that is
not recognised (case-insensitively) does *not* fall back to SFC32: the
inverted guard at `src/MyMath.js:827` lets the unrecognised name reach
the `switch`, whose `default` branch throws. -/
theorem c1_unrecognized_algo_throws (seed : ℕ) (s : String)
    (h : ∀ a ∈ availableAlgos, lowerStr a ≠ lowerStr s) :
    prngCreator seed (some s) = .error .shouldNotHappen := by
  have hany : (availableAlgos.any fun a => lowerStr a == lowerStr s) = false := by
    simp only [List.any_eq_false, beq_iff_eq]
    exact h
  have h1 : (lowerStr s == "sfc32") = false := by
    simp only [beq_eq_false_iff_ne, ne_eq]
    intro he
    exact h "sfc32" (by simp [availableAlgos]) (by rw [lowerStr_sfc32, he])
  have h2 : (lowerStr s == "mulberry32") = false := by
    simp only [beq_eq_false_iff_ne, ne_eq]
    intro he
    exact h "Mulberry32" (by simp [availableAlgos]) (by rw [lowerStr_mulberry, he])
  have h3 : (lowerStr s == "xoshiro128**") = false := by
    simp only [beq_eq_false_iff_ne, ne_eq]
    intro he
    exact h "xoshiro128**" (by simp [availableAlgos]) (by rw [lowerStr_xoshiro, he])
  unfold prngCreator
  simp only [hany, Bool.false_eq_true, if_false, h1, h2, h3]

/-- Witness for `c1_unrecognized_algo_throws`: `"foo"` is unrecognised
and creation with it throws. -/
theorem c1_unrecognized_algo_throws_witness :
    prngCreator 1 (some "foo") = .error .shouldNotHappen :=
  c1_unrecognized_algo_throws 1 "foo" (by decide)

/-- Claim C2 (refuted, code bug): because the guard at `src/MyMath.js:827`
replaces every *recognised* algorithm name by `"sfc32"`, asking for
`"Mulberry32"` or `"xoshiro128**"` returns exactly the same generator as
asking for `"sfc32"`: the mulberry32 and xoshiro128** cases of the
`switch` are unreachable, so the sequences cannot differ from SFC32's. -/
theorem c2_named_algos_collapse_to_sfc32 :
    prngCreator 7 (some "Mulberry32") = .ok (.sfc32 (sfc32InitState 7)) ∧
    prngCreator 7 (some "xoshiro128**") = .ok (.sfc32 (sfc32InitState 7)) ∧
    prngCreator 7 (some "Mulberry32") = prngCreator 7 (some "sfc32") ∧
    prngCreator 7 (some "xoshiro128**") = prngCreator 7 (some "sfc32") :=
  ⟨rfl, rfl, rfl, rfl⟩

/-- Claim C4 (refuted, code bug): constructing a matrix from vectors (one
per column) throws a `TypeError` whenever the first vector is non-empty:
the branch reads `content[j].asArray[i]` (`src/MyMath.js:299`) but the
`Vector` getter is named `array`, so `content[j].asArray` is `undefined`
and indexing it throws on the first loop iteration. -/
theorem c4_vector_column_construction_throws (v : VectorObj) (rest : List CArg)
    (h : 0 < v.length.getD 0) :
    Matrix.construct (.vec v :: rest) = .error .typeError := by
  unfold Matrix.construct
  simp only [List.getD_cons_zero]
  rw [if_pos h]

/-- Witness for `c4_vector_column_construction_throws`: a single
length-1 vector already throws. -/
theorem c4_vector_column_construction_throws_witness :
    Matrix.construct [.vec ⟨some 1, [1]⟩] = .error .typeError :=
  c4_vector_column_construction_throws ⟨some 1, [1]⟩ [] (by decide)

/-- Claim C3 (refuted, code bug): `Matrix.dotProduct(M, v)` with
`v.length == M.width` does not return the row-by-row dot products: the
vector is first converted through `new Matrix(v)`
(`src/MyMath.js:385-388`), which throws the `asArray` `TypeError` of
`c4_vector_column_construction_throws`.  `v.multiply(M)` delegates to the
same call and throws identically. -/
theorem c3_matrix_vector_dot_throws :
    Matrix.dotProduct (.mat ⟨.generic, some 1, some 1, some [[1]]⟩) (.vec ⟨some 1, [1]⟩) =
      .error .typeError ∧
    Vector.multiplyMatrix ⟨some 1, [1]⟩ ⟨.generic, some 1, some 1, some [[1]]⟩ =
      .error .typeError :=
  ⟨rfl, rfl⟩

/-- A `Nat`-valued size argument passes JS `Array(n)` validation. -/
theorem asSize_natCast (n : ℕ) : asSize (n : ℚ) = .ok n := by
  simp [asSize]

/-- Binding an `ok` value just applies the continuation. -/
theorem except_bind_ok {e a b : Type} (x : a) (f : a → Except e b) :
    (Except.ok x : Except e a).bind f = f x := rfl

/-- Reading a mapped scalar argument list at an in-range index. -/
theorem getD_map_num (xs : List ℚ) (k : ℕ) (hk : k < xs.length) :
    (xs.map CArg.num).getD k .other = .num (xs.getD k 0) := by
  induction xs generalizing k with
  | nil => simp at hk
  | cons a as ih =>
    cases k with
    | zero => simp
    | succ k =>
      simp only [List.map_cons, List.getD_cons_succ]
      exact ih k (by simpa using hk)

/-- Row-major index bound: `i*w + j < h*w` for `i < h`, `j < w`. -/
theorem rowMajor_idx_lt (i j h w : ℕ) (hi : i < h) (hj : j < w) :
    i * w + j < h * w := by
  calc i * w + j < i * w + w := by omega
    _ = (i + 1) * w := by ring
    _ ≤ h * w := Nat.mul_le_mul_right w hi

/-- Claim C5, counterexample: supplying the two size integers and *zero*
scalars is a scalar count (0) different from `h*w`, yet no
`ShapeMismatch` is raised: the flat-scalar protocol requires
`content[2]` to be a number (`src/MyMath.js:307`), so the call falls
through and silently returns the all-`undefined` matrix. -/
theorem c5_zero_scalars_no_error :
    Matrix.construct [.num 2, .num 3] = .ok Matrix.undefinedObj ∧
    ∀ e : JsErr, Matrix.construct [.num 2, .num 3] ≠ .error e :=
  ⟨rfl, fun _ h => Except.noConfusion h⟩

/-- Claim C5 (amended): for positive sizes `h`, `w` and at least one scalar
argument: exactly `h*w` scalars fill the matrix in row-major order
(entry `(i,j)` is scalar number `i*w + j`), and any other (positive)
scalar count fails with the `ShapeMismatch` error. -/
theorem c5_flat_scalar_construction (h w : ℕ) (hh : 0 < h) (hw : 0 < w) (xs : List ℚ) :
    (xs.length = h * w →
      Matrix.construct (.num (h : ℚ) :: .num (w : ℚ) :: xs.map .num) =
        .ok ⟨.generic, some h, some w,
          some ((List.range h).map fun i =>
            (List.range w).map fun j => xs.getD (i * w + j) 0)⟩) ∧
    (xs.length ≠ h * w → 0 < xs.length →
      Matrix.construct (.num (h : ℚ) :: .num (w : ℚ) :: xs.map .num) =
        .error .shapeMismatch) := by
  cases xs with
  | nil =>
    constructor
    · intro hlen
      exact absurd hlen.symm (Nat.ne_of_gt (Nat.mul_pos hh hw))
    · intro _ hpos
      exact absurd hpos (by simp)
  | cons x xs =>
    have hlencontent :
        (CArg.num (h : ℚ) :: CArg.num (w : ℚ) :: CArg.num x :: xs.map CArg.num).length =
          (x :: xs).length + 2 := by
      simp [List.length_map]
    constructor
    · intro hlen
      unfold Matrix.construct
      simp only [List.getD_cons_zero, List.getD_cons_succ, List.map_cons]
      rw [asSize_natCast, except_bind_ok, asSize_natCast, except_bind_ok]
      rw [if_neg (by rw [hlencontent, hlen, Nat.mul_comm]; simp)]
      simp only [Except.ok.injEq, MatrixObj.mk.injEq, true_and, Option.some.injEq]
      apply List.map_congr_left
      intro i hi
      apply List.map_congr_left
      intro j hj
      have hk : i * w + j < (x :: xs).length :=
        hlen ▸ rowMajor_idx_lt i j h w (List.mem_range.mp hi) (List.mem_range.mp hj)
      rw [Nat.add_comm 2 (i * w + j)]
      simp only [List.getD_cons_succ]
      rw [← List.map_cons, getD_map_num (x :: xs) (i * w + j) hk]
      rfl
    · intro hne _
      unfold Matrix.construct
      simp only [List.getD_cons_zero, List.getD_cons_succ, List.map_cons]
      rw [asSize_natCast, except_bind_ok, asSize_natCast, except_bind_ok]
      rw [if_pos (by rw [hlencontent, Nat.mul_comm]; omega)]

/-- Witness for `c5_flat_scalar_construction`: a 2×3 matrix from scalars
`1..6` gets rows `[1,2,3]`, `[4,5,6]`; five scalars throw
`ShapeMismatch`. -/
theorem c5_flat_scalar_construction_witness :
    Matrix.construct [.num 2, .num 3, .num 1, .num 2, .num 3, .num 4, .num 5, .num 6] =
      .ok ⟨.generic, some 2, some 3, some [[1, 2, 3], [4, 5, 6]]⟩ ∧
    Matrix.construct [.num 2, .num 3, .num 1, .num 2, .num 3, .num 4, .num 5] =
      .error .shapeMismatch := by
  constructor
  · have h := (c5_flat_scalar_construction 2 3 (by decide) (by decide)
      [1, 2, 3, 4, 5, 6]).1 (by decide)
    simpa [List.range_succ] using h
  · have h := (c5_flat_scalar_construction 2 3 (by decide) (by decide)
      [1, 2, 3, 4, 5]).2 (by decide) (by decide)
    simpa using h

/-- Constructing from a nested 2-D array never throws (wrapped in the
final `.map` of `Matrix.dotProduct`). -/
theorem construct_nested_map_isOk (rows : List (List ℚ)) :
    ∃ M, (Matrix.construct [.nested rows]).map MVal.mat = Except.ok (MVal.mat M) := by
  cases rows with
  | nil => exact ⟨_, rfl⟩
  | cons r rs => exact ⟨_, rfl⟩

/-- Claim C9: for matrices `A`, `B` (with defined dimensions),
`Matrix.dotProduct(A, B)` throws the `IncompatibleShapes` error exactly
when `A.width != B.height`; when the shapes agree it returns a matrix
and raises nothing (`src/MyMath.js:390-392`). -/
theorem c9_incompatible_shapes (A B : MatrixObj) (hA wA hB wB : ℕ)
    (hAh : A.height = some hA) (hAw : A.width = some wA)
    (hBh : B.height = some hB) (hBw : B.width = some wB) :
    (wA ≠ hB → Matrix.dotProduct (.mat A) (.mat B) = .error .incompatibleShapes) ∧
    (wA = hB → ∃ C, Matrix.dotProduct (.mat A) (.mat B) = .ok (.mat C)) := by
  constructor
  · intro hne
    unfold Matrix.dotProduct MVal.toOperand
    rw [except_bind_ok, except_bind_ok]
    rw [if_pos (by rw [hAw, hBh]; simp [hne])]
  · intro heq
    unfold Matrix.dotProduct MVal.toOperand
    rw [except_bind_ok, except_bind_ok]
    rw [if_neg (by rw [hAw, hBh, heq]; simp)]
    exact construct_nested_map_isOk _

/-- Witness for `c9_incompatible_shapes`: a 2×3 matrix dotted with a 2×2
matrix throws `IncompatibleShapes`; dotted with a 3×2 matrix it
returns a matrix. -/
theorem c9_incompatible_shapes_witness :
    Matrix.dotProduct (.mat ⟨.generic, some 2, some 3, some [[1, 2, 3], [4, 5, 6]]⟩)
      (.mat ⟨.generic, some 2, some 2, some [[1, 0], [0, 1]]⟩) =
        .error .incompatibleShapes ∧
    ∃ C, Matrix.dotProduct (.mat ⟨.generic, some 2, some 3, some [[1, 2, 3], [4, 5, 6]]⟩)
      (.mat ⟨.generic, some 3, some 2, some [[1, 0], [0, 1], [0, 0]]⟩) = .ok (.mat C) :=
  ⟨(c9_incompatible_shapes _ _ 2 3 2 2 rfl rfl rfl rfl).1 (by decide),
   (c9_incompatible_shapes _ _ 2 3 3 2 rfl rfl rfl rfl).2 rfl⟩

/-- Reducing modulo `2^32` leaves a 32-bit word. -/
theorem mod_U32_lt (x : ℕ) : x % U32 < U32 :=
  Nat.mod_lt _ (by norm_num [U32])

/-- XORing a word below `2^32` with one of its right-shifts stays below
`2^32`. -/
theorem xor_shiftRight_lt {z : ℕ} (n : ℕ) (hz : z < U32) :
    (z ^^^ (z >>> n)) < U32 := by
  have hU : U32 = 2 ^ 32 := by norm_num [U32]
  rw [hU] at hz ⊢
  refine Nat.xor_lt_two_pow hz (lt_of_le_of_lt ?_ hz)
  rw [Nat.shiftRight_eq_div_pow]
  exact Nat.div_le_self _ _

/-- Every raw draw of every generator is a 32-bit word. -/
theorem rawNext_lt (p : Prng) : p.rawNext.1 < U32 := by
  have hU : U32 = 2 ^ 32 := by norm_num [U32]
  cases p with
  | sfc32 s => exact mod_U32_lt _
  | mulberry32 s =>
    show (mulberry32Next s).1 < U32
    dsimp only [mulberry32Next]
    apply xor_shiftRight_lt
    rw [hU]
    exact Nat.xor_lt_two_pow (hU ▸ mod_U32_lt _) (hU ▸ mod_U32_lt _)
  | xoshiro128ss s => exact mod_U32_lt _

/-- Every scaled draw of every generator lies in `[0,1)`; by induction the
whole draw sequence does. -/
theorem seq_all_inUnit (n : ℕ) : ∀ p : Prng, (p.seq n).all inUnit = true := by
  induction n with
  | zero => intro p; rfl
  | succ n ih =>
    intro p
    show (p.next.1 :: p.next.2.seq n).all inUnit = true
    rw [List.all_cons, ih, Bool.and_true]
    have hlt := rawNext_lt p
    unfold inUnit Prng.next
    simp only [Bool.and_eq_true, decide_eq_true_eq]
    constructor
    · positivity
    · rw [div_lt_one (by norm_num)]
      calc ((p.rawNext.1 : ℚ)) < (U32 : ℚ) := by exact_mod_cast hlt
        _ = 4294967296 := by norm_num [U32]

/-- Claim C6: the SFC32 generator returned by `prngCreator` is a pure
function of the seed: two creations with the same seed yield the same
draw sequence (of any length, in particular 1000), and every draw lies
in `[0,1)`. -/
theorem c6_sfc32_deterministic_unit_range (seed n : ℕ) (g1 g2 : Prng)
    (h1 : prngCreator seed (some "sfc32") = .ok g1)
    (h2 : prngCreator seed (some "sfc32") = .ok g2) :
    g1.seq n = g2.seq n ∧ (g1.seq n).all inUnit = true := by
  have e : prngCreator seed (some "sfc32") = .ok (.sfc32 (sfc32InitState (seed % U32))) := rfl
  rw [e] at h1 h2
  injection h1 with h1
  injection h2 with h2
  subst h1
  subst h2
  exact ⟨rfl, seq_all_inUnit n _⟩

/-- Witness for `c6_sfc32_deterministic_unit_range` at seed 42 and 1000
draws. -/
theorem c6_sfc32_deterministic_unit_range_witness :
    (Prng.sfc32 (sfc32InitState 42)).seq 1000 = (Prng.sfc32 (sfc32InitState 42)).seq 1000 ∧
    ((Prng.sfc32 (sfc32InitState 42)).seq 1000).all inUnit = true :=
  c6_sfc32_deterministic_unit_range 42 1000 _ _ rfl rfl

/-- Claim C7: over exact real arithmetic, composing the rotation by `θ`
with the rotation by `-θ` through the specialized fixed-size dot product
yields the identity, for both the 2×2 and the 3×3 rotation factories. -/
theorem c7_rotation_inverse_identity (θ : ℝ) :
    Mat2x2.dotProductR (Mat2x2.getRotationR θ) (Mat2x2.getRotationR (-θ)) =
      Mat2x2.getIdentityR ∧
    Mat3x3.dotProductR (Mat3x3.getRotationR θ) (Mat3x3.getRotationR (-θ)) =
      Mat3x3.getIdentityR := by
  have h := Real.sin_sq_add_cos_sq θ
  constructor <;>
  · simp only [Mat2x2.dotProductR, Mat2x2.getRotationR, Mat2x2.getIdentityR,
      Mat3x3.dotProductR, Mat3x3.getRotationR, Mat3x3.getIdentityR, entR,
      Real.cos_neg, Real.sin_neg, List.getD_cons_zero, List.getD_cons_succ,
      List.cons.injEq, and_true]
    norm_num
    repeat' apply And.intro
    all_goals first | ring1 | linear_combination h

/-- A list of length 2 is a 2-element literal. -/
theorem list_shape2 {α : Type} (l : List α) (h : l.length = 2) : ∃ a b, l = [a, b] := by
  match l, h with
  | [a, b], _ => exact ⟨a, b, rfl⟩

/-- A list of length 3 is a 3-element literal. -/
theorem list_shape3 {α : Type} (l : List α) (h : l.length = 3) : ∃ a b c, l = [a, b, c] := by
  match l, h with
  | [a, b, c], _ => exact ⟨a, b, c, rfl⟩

/-- A list of length 4 is a 4-element literal. -/
theorem list_shape4 {α : Type} (l : List α) (h : l.length = 4) :
    ∃ a b c d, l = [a, b, c, d] := by
  match l, h with
  | [a, b, c, d], _ => exact ⟨a, b, c, d, rfl⟩

/-- A well-formed 2×2 matrix object is a record literal. -/
theorem wf2_eq (M : MatrixObj) (ht : M.tag = .m2) (hv : M.wfSize 2) :
    ∃ a00 a01 a10 a11,
      M = ⟨.m2, some 2, some 2, some [[a00, a01], [a10, a11]]⟩ := by
  obtain ⟨hh, hw, rows, hm, hlen, hall⟩ := hv
  obtain ⟨r0, r1, rfl⟩ := list_shape2 rows hlen
  obtain ⟨a00, a01, rfl⟩ := list_shape2 r0 (hall _ (by simp))
  obtain ⟨a10, a11, rfl⟩ := list_shape2 r1 (hall _ (by simp))
  exact ⟨a00, a01, a10, a11, by cases M; simp_all⟩

/-- A well-formed 3×3 matrix object is a record literal. -/
theorem wf3_eq (M : MatrixObj) (ht : M.tag = .m3) (hv : M.wfSize 3) :
    ∃ a00 a01 a02 a10 a11 a12 a20 a21 a22,
      M = ⟨.m3, some 3, some 3,
        some [[a00, a01, a02], [a10, a11, a12], [a20, a21, a22]]⟩ := by
  obtain ⟨hh, hw, rows, hm, hlen, hall⟩ := hv
  obtain ⟨r0, r1, r2, rfl⟩ := list_shape3 rows hlen
  obtain ⟨a00, a01, a02, rfl⟩ := list_shape3 r0 (hall _ (by simp))
  obtain ⟨a10, a11, a12, rfl⟩ := list_shape3 r1 (hall _ (by simp))
  obtain ⟨a20, a21, a22, rfl⟩ := list_shape3 r2 (hall _ (by simp))
  exact ⟨a00, a01, a02, a10, a11, a12, a20, a21, a22, by cases M; simp_all⟩

/-- A well-formed 4×4 matrix object is a record literal. -/
theorem wf4_eq (M : MatrixObj) (ht : M.tag = .m4) (hv : M.wfSize 4) :
    ∃ a00 a01 a02 a03 a10 a11 a12 a13 a20 a21 a22 a23 a30 a31 a32 a33,
      M = ⟨.m4, some 4, some 4,
        some [[a00, a01, a02, a03], [a10, a11, a12, a13],
              [a20, a21, a22, a23], [a30, a31, a32, a33]]⟩ := by
  obtain ⟨hh, hw, rows, hm, hlen, hall⟩ := hv
  obtain ⟨r0, r1, r2, r3, rfl⟩ := list_shape4 rows hlen
  obtain ⟨a00, a01, a02, a03, rfl⟩ := list_shape4 r0 (hall _ (by simp))
  obtain ⟨a10, a11, a12, a13, rfl⟩ := list_shape4 r1 (hall _ (by simp))
  obtain ⟨a20, a21, a22, a23, rfl⟩ := list_shape4 r2 (hall _ (by simp))
  obtain ⟨a30, a31, a32, a33, rfl⟩ := list_shape4 r3 (hall _ (by simp))
  exact ⟨a00, a01, a02, a03, a10, a11, a12, a13, a20, a21, a22, a23,
    a30, a31, a32, a33, by cases M; simp_all⟩

/-- Claim C8: on two fixed matrices of the same size the specialized
unrolled `dotProduct` returns a matrix elementwise equal to the generic
`Matrix.dotProduct` of the same operands (only the class tag differs);
whenever the operands are not both instances of the matching fixed
class, the specialized `dotProduct` returns exactly the generic result
(it delegates unchanged). -/
theorem c8_specialized_dot_matches_generic :
    (∀ Ma Mb : MatrixObj, Ma.tag = .m2 → Mb.tag = .m2 → Ma.wfSize 2 → Mb.wfSize 2 →
      ∃ C D, Mat2x2.dotProduct (.mat Ma) (.mat Mb) = .ok (.mat C) ∧
        Matrix.dotProduct (.mat Ma) (.mat Mb) = .ok (.mat D) ∧ C.elemEq D) ∧
    (∀ Ma Mb : MatrixObj, Ma.tag = .m3 → Mb.tag = .m3 → Ma.wfSize 3 → Mb.wfSize 3 →
      ∃ C D, Mat3x3.dotProduct (.mat Ma) (.mat Mb) = .ok (.mat C) ∧
        Matrix.dotProduct (.mat Ma) (.mat Mb) = .ok (.mat D) ∧ C.elemEq D) ∧
    (∀ Ma Mb : MatrixObj, Ma.tag = .m4 → Mb.tag = .m4 → Ma.wfSize 4 → Mb.wfSize 4 →
      ∃ C D, Mat4x4.dotProduct (.mat Ma) (.mat Mb) = .ok (.mat C) ∧
        Matrix.dotProduct (.mat Ma) (.mat Mb) = .ok (.mat D) ∧ C.elemEq D) ∧
    (∀ A B : MVal, ¬(A.isTag .m2 = true ∧ B.isTag .m2 = true) →
      Mat2x2.dotProduct A B = Matrix.dotProduct A B) ∧
    (∀ A B : MVal, ¬(A.isTag .m3 = true ∧ B.isTag .m3 = true) →
      Mat3x3.dotProduct A B = Matrix.dotProduct A B) ∧
    (∀ A B : MVal, ¬(A.isTag .m4 = true ∧ B.isTag .m4 = true) →
      Mat4x4.dotProduct A B = Matrix.dotProduct A B) := by
  refine ⟨?_, ?_, ?_, ?_, ?_, ?_⟩
  · intro Ma Mb ta tb wa wb
    obtain ⟨a00, a01, a10, a11, rfl⟩ := wf2_eq Ma ta wa
    obtain ⟨b00, b01, b10, b11, rfl⟩ := wf2_eq Mb tb wb
    refine ⟨⟨.m2, some 2, some 2,
        some [[a00 * b00 + a01 * b10, a00 * b01 + a01 * b11],
           [a10 * b00 + a11 * b10, a10 * b01 + a11 * b11]]⟩,
      ⟨.generic, some 2, some 2,
        some [[0 + a00 * b00 + a01 * b10, 0 + a00 * b01 + a01 * b11],
           [0 + a10 * b00 + a11 * b10, 0 + a10 * b01 + a11 * b11]]⟩,
      rfl, rfl, rfl, rfl, ?_⟩
    simp only [Option.some.injEq, List.cons.injEq, and_true]
    repeat' apply And.intro
    all_goals ring1
  · intro Ma Mb ta tb wa wb
    obtain ⟨a00, a01, a02, a10, a11, a12, a20, a21, a22, rfl⟩ := wf3_eq Ma ta wa
    obtain ⟨b00, b01, b02, b10, b11, b12, b20, b21, b22, rfl⟩ := wf3_eq Mb tb wb
    refine ⟨⟨.m3, some 3, some 3,
        some [[a00 * b00 + a01 * b10 + a02 * b20, a00 * b01 + a01 * b11 + a02 * b21, a00 * b02 + a01 * b12 + a02 * b22],
           [a10 * b00 + a11 * b10 + a12 * b20, a10 * b01 + a11 * b11 + a12 * b21, a10 * b02 + a11 * b12 + a12 * b22],
           [a20 * b00 + a21 * b10 + a22 * b20, a20 * b01 + a21 * b11 + a22 * b21, a20 * b02 + a21 * b12 + a22 * b22]]⟩,
      ⟨.generic, some 3, some 3,
        some [[0 + a00 * b00 + a01 * b10 + a02 * b20, 0 + a00 * b01 + a01 * b11 + a02 * b21, 0 + a00 * b02 + a01 * b12 + a02 * b22],
           [0 + a10 * b00 + a11 * b10 + a12 * b20, 0 + a10 * b01 + a11 * b11 + a12 * b21, 0 + a10 * b02 + a11 * b12 + a12 * b22],
           [0 + a20 * b00 + a21 * b10 + a22 * b20, 0 + a20 * b01 + a21 * b11 + a22 * b21, 0 + a20 * b02 + a21 * b12 + a22 * b22]]⟩,
      rfl, rfl, rfl, rfl, ?_⟩
    simp only [Option.some.injEq, List.cons.injEq, and_true]
    repeat' apply And.intro
    all_goals ring1
  · intro Ma Mb ta tb wa wb
    obtain ⟨a00, a01, a02, a03, a10, a11, a12, a13, a20, a21, a22, a23, a30, a31, a32, a33, rfl⟩ := wf4_eq Ma ta wa
    obtain ⟨b00, b01, b02, b03, b10, b11, b12, b13, b20, b21, b22, b23, b30, b31, b32, b33, rfl⟩ := wf4_eq Mb tb wb
    refine ⟨⟨.m4, some 4, some 4,
        some [[a00 * b00 + a01 * b10 + a02 * b20 + a03 * b30, a00 * b01 + a01 * b11 + a02 * b21 + a03 * b31, a00 * b02 + a01 * b12 + a02 * b22 + a03 * b32, a00 * b03 + a01 * b13 + a02 * b23 + a03 * b33],
           [a10 * b00 + a11 * b10 + a12 * b20 + a13 * b30, a10 * b01 + a11 * b11 + a12 * b21 + a13 * b31, a10 * b02 + a11 * b12 + a12 * b22 + a13 * b32, a10 * b03 + a11 * b13 + a12 * b23 + a13 * b33],
           [a20 * b00 + a21 * b10 + a22 * b20 + a23 * b30, a20 * b01 + a21 * b11 + a22 * b21 + a23 * b31, a20 * b02 + a21 * b12 + a22 * b22 + a23 * b32, a20 * b03 + a21 * b13 + a22 * b23 + a23 * b33],
           [a30 * b00 + a31 * b10 + a32 * b20 + a33 * b30, a30 * b01 + a31 * b11 + a32 * b21 + a33 * b31, a30 * b02 + a31 * b12 + a32 * b22 + a33 * b32, a30 * b03 + a31 * b13 + a32 * b23 + a33 * b33]]⟩,
      ⟨.generic, some 4, some 4,
        some [[0 + a00 * b00 + a01 * b10 + a02 * b20 + a03 * b30, 0 + a00 * b01 + a01 * b11 + a02 * b21 + a03 * b31, 0 + a00 * b02 + a01 * b12 + a02 * b22 + a03 * b32, 0 + a00 * b03 + a01 * b13 + a02 * b23 + a03 * b33],
           [0 + a10 * b00 + a11 * b10 + a12 * b20 + a13 * b30, 0 + a10 * b01 + a11 * b11 + a12 * b21 + a13 * b31, 0 + a10 * b02 + a11 * b12 + a12 * b22 + a13 * b32, 0 + a10 * b03 + a11 * b13 + a12 * b23 + a13 * b33],
           [0 + a20 * b00 + a21 * b10 + a22 * b20 + a23 * b30, 0 + a20 * b01 + a21 * b11 + a22 * b21 + a23 * b31, 0 + a20 * b02 + a21 * b12 + a22 * b22 + a23 * b32, 0 + a20 * b03 + a21 * b13 + a22 * b23 + a23 * b33],
           [0 + a30 * b00 + a31 * b10 + a32 * b20 + a33 * b30, 0 + a30 * b01 + a31 * b11 + a32 * b21 + a33 * b31, 0 + a30 * b02 + a31 * b12 + a32 * b22 + a33 * b32, 0 + a30 * b03 + a31 * b13 + a32 * b23 + a33 * b33]]⟩,
      rfl, rfl, rfl, rfl, ?_⟩
    simp only [Option.some.injEq, List.cons.injEq, and_true]
    repeat' apply And.intro
    all_goals ring1
  · intro A B h
    cases A with
    | vec v => cases B <;> rfl
    | mat Ma =>
      cases B with
      | vec w => rfl
      | mat Mb =>
        simp only [MVal.isTag, decide_eq_true_eq] at h
        simp only [Mat2x2.dotProduct]
        rw [if_neg h]
  · intro A B h
    cases A with
    | vec v => cases B <;> rfl
    | mat Ma =>
      cases B with
      | vec w => rfl
      | mat Mb =>
        simp only [MVal.isTag, decide_eq_true_eq] at h
        simp only [Mat3x3.dotProduct]
        rw [if_neg h]
  · intro A B h
    cases A with
    | vec v => cases B <;> rfl
    | mat Ma =>
      cases B with
      | vec w => rfl
      | mat Mb =>
        simp only [MVal.isTag, decide_eq_true_eq] at h
        simp only [Mat4x4.dotProduct]
        rw [if_neg h]

/-- Witness for `c8_specialized_dot_matches_generic`: two concrete
`Mat2x2` instances, and the fallback on a `Mat2x2` paired with a generic
matrix. -/
theorem c8_specialized_dot_matches_generic_witness :
    (∃ C D, Mat2x2.dotProduct (.mat ⟨.m2, some 2, some 2, some [[1, 2], [3, 4]]⟩)
        (.mat ⟨.m2, some 2, some 2, some [[5, 6], [7, 8]]⟩) = .ok (.mat C) ∧
      Matrix.dotProduct (.mat ⟨.m2, some 2, some 2, some [[1, 2], [3, 4]]⟩)
        (.mat ⟨.m2, some 2, some 2, some [[5, 6], [7, 8]]⟩) = .ok (.mat D) ∧
      C.elemEq D) ∧
    Mat2x2.dotProduct (.mat ⟨.m2, some 2, some 2, some [[1, 2], [3, 4]]⟩)
        (.mat ⟨.generic, some 2, some 2, some [[5, 6], [7, 8]]⟩) =
      Matrix.dotProduct (.mat ⟨.m2, some 2, some 2, some [[1, 2], [3, 4]]⟩)
        (.mat ⟨.generic, some 2, some 2, some [[5, 6], [7, 8]]⟩) :=
  ⟨c8_specialized_dot_matches_generic.1 _ _ rfl rfl
      ⟨rfl, rfl, [[1, 2], [3, 4]], rfl, rfl, by decide⟩
      ⟨rfl, rfl, [[5, 6], [7, 8]], rfl, rfl, by decide⟩,
    c8_specialized_dot_matches_generic.2.2.2.1 _ _ (by decide)⟩

end MyMath
